import Mathlib

/-!
Shallow embedding of the entity/scene registry of
`src/gepetto_viewer_rerun/client.py` (class `Gui`), together with the parts
of the repository that `client.py` imports but that are not present under
`src/` (the `Entity` and `Scene` classes of `entity.py` / `scene.py`), which
are modelled from the specification.

Conventions of the embedding:
 - Python strings are lists of characters (`Name`); `str.find` and slicing
   become list recursion, `take` and `drop`.
 - Python `None` is `Option.none`; an attribute access on `None` (an
   `AttributeError` at run time) is an `Ret.exn` outcome carrying the state
   the program had mutated up to the raise, exactly as Python's global
   state survives a propagating exception.
 - Python numbers (ints and floats) are embedded as rationals; the
   geometric payload contents are opaque to the registry (spec section 1),
   so each payload constructor keeps the construction parameters and the
   attributes the registry itself reads (the colors attribute, the file
   path) and drops backend-only constants (fill modes, trigonometric
   vector tables, which are functions of the kept parameters).
 - The external rerun backend is represented by the trace of calls the core
   issues to it (`LogEvent`), per the external-interface contract of spec
   section 6.
 - Python `Scene` objects are shared by reference between `Gui.sceneList`
   and each `Entity.scenes`; `createScene` only ever appends fresh objects
   and no scene is ever removed, so object identity is faithfully encoded
   by the scene's index in `sceneList`.  `Entity.scenes` therefore stores
   indices into `sceneList`, and the Python identity test `scene == s` of
   `_isEntityInScene` is index equality.
-/

set_option linter.unusedVariables false

/-- Python strings, embedded as lists of characters. -/
abbrev Name := List Char

/-- Color payload component: a sequence of RGB or RGBA component
sequences.  Python ints and floats are embedded as rationals. -/
abbrev Colors := List (List Rat)

/-- The `Archetype` enum of `client.py` (values 0 to 6 in declaration
order). -/
inductive Archetype where
  | ARROWS3D
  | BOXES3D
  | CAPSULES3D
  | LINESTRIPS3D
  | MESH3D
  | MESH_FROM_PATH
  | POINTS3D
deriving DecidableEq

/-- The Python `Archetype.value` of each enum member. -/
def Archetype.value : Archetype → Nat
  | .ARROWS3D => 0
  | .BOXES3D => 1
  | .CAPSULES3D => 2
  | .LINESTRIPS3D => 3
  | .MESH3D => 4
  | .MESH_FROM_PATH => 5
  | .POINTS3D => 6

/-- Backend payload of an entity.  One constructor per backend archetype
constructed in `client.py`, keeping the construction parameters the
registry can later read back:
 - `arrows3d` is `rr.Arrows3D(radii=[[radius]], vectors=f(length),
   colors=colors, labels=labels)` where the vector table `f(length)` is a
   pure function of `length` (a single `[0, 0, length]` vector), kept
   as the `length` parameter;
 - `boxes3d` is `rr.Boxes3D(sizes=sizes, colors=colors,
   fill_mode="Solid", labels=labels)` (the constant fill mode is
   dropped, the floor variant passes no labels);
 - `capsules3d` is `rr.Capsules3D(lengths=lengths, radii=radii,
   colors=colors)`;
 - `lineStrips3d` is `rr.LineStrips3D(strips, radii=radii, colors=colors,
   labels=labels)`;
 - `mesh3d` is `rr.Mesh3D(vertex_positions=.., triangle_indices=..,
   vertex_colors=..)` (the triangle-face variant passes no triangle
   indices, embedded as `[]`); note that `rr.Mesh3D` exposes
   `vertex_colors` and has no `colors` attribute;
 - `meshFromPath` is the repository's own `MeshFromPath` marker holding
   the file path (modelled from the spec: the mesh-from-path payload is
   the path of an external file, spec sections 4.4 and 6);
 - `points3d` is `rr.Points3D(positions=.., radii=.., colors=..,
   labels=..)`. -/
inductive Payload where
  | arrows3d (radii : List (List Rat)) (length : Rat) (colors : Colors) (labels : List Name)
  | boxes3d (sizes : List (List Rat)) (colors : Colors) (labels : List Name)
  | capsules3d (lengths : List Rat) (radii : List Rat) (colors : Colors)
  | lineStrips3d (strips : List (List (List Rat))) (radii : List Rat) (colors : Colors) (labels : List Name)
  | mesh3d (vertexPositions : List (List Rat)) (triangleIndices : List (List Nat)) (vertexColors : Colors)
  | meshFromPath (path : Name)
  | points3d (positions : List (List Rat)) (radii : List (List Rat)) (colors : Colors) (labels : List Name)
deriving DecidableEq

/-- The Python attribute access `payload.colors` used by
`Gui.resizeArrow`: present on the arrow, box, capsule, line-strip and
point archetypes; absent (`AttributeError`, hence `none`) on `rr.Mesh3D`
(which only has `vertex_colors`) and on the repository's `MeshFromPath`
(which only holds a file path). -/
def Payload.colorsAttr : Payload → Option Colors
  | .arrows3d _ _ colors _ => some colors
  | .boxes3d _ colors _ => some colors
  | .capsules3d _ _ colors => some colors
  | .lineStrips3d _ _ colors _ => some colors
  | .mesh3d _ _ _ => none
  | .meshFromPath _ => none
  | .points3d _ _ colors _ => some colors

/-- The Python attribute access `payload.path`, present only on
`MeshFromPath`. -/
def Payload.pathAttr : Payload → Option Name
  | .meshFromPath p => some p
  | _ => none

/-- Recording handle returned by
`rr.new_recording(application_id=.., recording_id=.., spawn=True)`. -/
structure Recording where
  applicationId : Name
  recordingId : Name
deriving DecidableEq

/-- Backend-native form of a recording handle
(`rec.to_native()`); a distinct type, as the file-load entry point of the
backend requires this form (spec section 6). -/
structure NativeRecording where
  applicationId : Name
  recordingId : Name
deriving DecidableEq

/-- The conversion `rec.to_native()`. -/
def Recording.toNative (r : Recording) : NativeRecording :=
  ⟨r.applicationId, r.recordingId⟩

/-- Modelled from the spec: the `Scene` class of the repository's
`scene.py` (absent from `src/`).  Spec section 3: a scene is a unique
name plus an optional opaque recording handle, created with no recording.
The Python field is called `rec`; it is named `recording` here because
`rec` is reserved in Lean. -/
structure Scene where
  name : Name
  recording : Option Recording
deriving DecidableEq

/-- Modelled from the spec: `Scene.setRec` of `scene.py` assigns the
recording handle (spec section 4.2: on a repeated bind "the handle is
simply overwritten"). -/
def Scene.setRec (s : Scene) (r : Recording) : Scene :=
  { s with recording := some r }

/-- Modelled from the spec: the `Entity` class of the repository's
`entity.py` (absent from `src/`).  Spec section 3: a name, a payload and
the set of scenes the entity has been published into.  Scene references
are encoded as indices into `Gui.sceneList` (see the file comment). -/
structure Entity where
  name : Name
  archetype : Payload
  scenes : List Nat
deriving DecidableEq

/-- Modelled from the spec: `Entity.addScene` inserts a scene into the
entity's membership set; spec section 4.3, `addMembership` is
idempotent. -/
def Entity.addScene (e : Entity) (sceneIndex : Nat) : Entity :=
  if sceneIndex ∈ e.scenes then e else { e with scenes := e.scenes ++ [sceneIndex] }

/-- A call issued to the external rerun backend (spec section 6):
`log` is `rr.log(entityPath, payload, recording=recording)` (a recording
of `none` is Python `None`, making the backend fall back to its default
recording); `logFile` is
`rr.log_file_from_path(file_path=filePath, recording=native)`, which is
only ever reached with a non-`None` handle already converted to native
form. -/
inductive LogEvent where
  | log (entityPath : Name) (payload : Payload) (recording : Option Recording)
  | logFile (filePath : Name) (recording : NativeRecording)
deriving DecidableEq

/-- Outcome of a Python call: a returned value, or a propagating
exception. -/
inductive Ret where
  | val (b : Bool)
  | exn (msg : String)
deriving DecidableEq

/-- The seven per-archetype entity buckets of `Gui.entityList`
(`[[] for _ in range(len(Archetype))]`), one field per `Archetype.value`
index 0 to 6. -/
structure EntityTable where
  arrows : List Entity
  boxes : List Entity
  capsules : List Entity
  lineStrips : List Entity
  meshes : List Entity
  meshFromPaths : List Entity
  points : List Entity
deriving DecidableEq

/-- Bucket lookup `entityList[archetype.value]`. -/
def EntityTable.get (t : EntityTable) : Archetype → List Entity
  | .ARROWS3D => t.arrows
  | .BOXES3D => t.boxes
  | .CAPSULES3D => t.capsules
  | .LINESTRIPS3D => t.lineStrips
  | .MESH3D => t.meshes
  | .MESH_FROM_PATH => t.meshFromPaths
  | .POINTS3D => t.points

/-- Bucket update `entityList[archetype.value] = l`. -/
def EntityTable.set (t : EntityTable) (a : Archetype) (l : List Entity) : EntityTable :=
  match a with
  | .ARROWS3D => { t with arrows := l }
  | .BOXES3D => { t with boxes := l }
  | .CAPSULES3D => { t with capsules := l }
  | .LINESTRIPS3D => { t with lineStrips := l }
  | .MESH3D => { t with meshes := l }
  | .MESH_FROM_PATH => { t with meshFromPaths := l }
  | .POINTS3D => { t with points := l }

/-- The iteration order of `for entity_list in self.entityList`: bucket
index order 0 to 6. -/
def bucketOrder : List Archetype :=
  [.ARROWS3D, .BOXES3D, .CAPSULES3D, .LINESTRIPS3D, .MESH3D, .MESH_FROM_PATH, .POINTS3D]

/-- The state of the `Gui` class: scene list, window list and the
per-archetype entity buckets. -/
structure Gui where
  sceneList : List Scene
  windowList : List Name
  entityList : EntityTable
deriving DecidableEq

/-- `Gui.__init__`: empty scene and window lists, seven empty entity
buckets. -/
def Gui.init : Gui :=
  ⟨[], [], ⟨[], [], [], [], [], [], []⟩⟩

/-- Result of a `Gui` operation: the Python outcome, the state after the
call (also after a propagating exception: Python's global state keeps the
mutations made before the raise), and the trace of backend calls
issued. -/
structure OpResult where
  ret : Ret
  gui : Gui
  events : List LogEvent
deriving DecidableEq

/-- Python `name.find("/")`: index of the first `/`, `none` for the
Python result `-1`. -/
def findSlash : Name → Option Nat
  | [] => none
  | c :: cs =>
    if c = '/' then some 0
    else
      match findSlash cs with
      | some i => some (i + 1)
      | none => none

/-- The name split shared by `Gui._parseEntity` and `Gui.resizeArrow`:
`charIndex = name.find("/")`, and when `charIndex != -1 and
charIndex != len(name) - 1`, the pair
`(name[:charIndex], name[charIndex + 1:])`. -/
def splitSceneName (name : Name) : Option (Name × Name) :=
  match findSlash name with
  | none => none
  | some i => if i = name.length - 1 then none else some (name.take i, name.drop (i + 1))

/-- `Gui._getSceneIndex` on an explicit scene list: index of the first
scene with the given name, `none` for the Python result `-1`. -/
def getSceneIndexList (sceneName : Name) : List Scene → Option Nat
  | [] => none
  | s :: rest =>
    if s.name = sceneName then some 0
    else
      match getSceneIndexList sceneName rest with
      | some i => some (i + 1)
      | none => none

/-- `Gui._getSceneIndex`. -/
def Gui.getSceneIndex (g : Gui) (sceneName : Name) : Option Nat :=
  getSceneIndexList sceneName g.sceneList

/-- `Gui._getRecording` on an explicit scene list: `next((scene.rec for
scene in sceneList if scene.name == recName), None)` — the recording
field of the first scene with the given name, which may itself be `None`;
both that and a missing scene yield `none`. -/
def findRec (recName : Name) : List Scene → Option Recording
  | [] => none
  | s :: rest => if s.name = recName then s.recording else findRec recName rest

/-- `Gui._getRecording`. -/
def Gui.getRecording (g : Gui) (recName : Name) : Option Recording :=
  findRec recName g.sceneList

/-- The recording field of `sceneList[i]` for an in-range index `i`
(`sceneList[i].rec` in the source, which only evaluates it at indices
returned by `_getSceneIndex`). -/
def Gui.recAt (g : Gui) (i : Nat) : Option Recording :=
  (g.sceneList.get? i).bind fun s => s.recording

/-- First match of `for entity in entity_list: if entity.name == n` in a
single bucket, with its position. -/
def entityFindInBucket (n : Name) : List Entity → Option (Nat × Entity)
  | [] => none
  | e :: rest =>
    if e.name = n then some (0, e)
    else
      match entityFindInBucket n rest with
      | some (i, e2) => some (i + 1, e2)
      | none => none

/-- First match of `Gui._getEntity` across the given buckets, with the
bucket and the position inside it. -/
def entityFindAux (n : Name) (t : EntityTable) : List Archetype → Option (Archetype × Nat × Entity)
  | [] => none
  | a :: rest =>
    match entityFindInBucket n (t.get a) with
    | some (i, e) => some (a, i, e)
    | none => entityFindAux n t rest

/-- `Gui._getEntity`, returning the found entity together with the bucket
and position holding it (the position stands for the object reference the
Python code mutates in place). -/
def Gui.findEntity (g : Gui) (n : Name) : Option (Archetype × Nat × Entity) :=
  entityFindAux n g.entityList bucketOrder

/-- `Gui._getEntity` proper: just the entity. -/
def Gui.getEntity (g : Gui) (n : Name) : Option Entity :=
  (g.findEntity n).map fun p => p.2.2

/-- `Gui._isEntityInScene(entity, scene)`: the Python identity test
`scene == s` over the shared `Scene` objects, which is equality of
`sceneList` indices (see the file comment). -/
def isEntityInScene (entity : Entity) (sceneIndex : Nat) : Bool :=
  decide (sceneIndex ∈ entity.scenes)

/-- In-place mutation of the entity object found at bucket `a`, position
`i`. -/
def Gui.setEntityAt (g : Gui) (a : Archetype) (i : Nat) (e : Entity) : Gui :=
  { g with entityList := g.entityList.set a ((g.entityList.get a).set i e) }

/-- `self.entityList[entityType.value].append(entity)`. -/
def Gui.appendEntity (g : Gui) (a : Archetype) (e : Entity) : Gui :=
  { g with entityList := g.entityList.set a (g.entityList.get a ++ [e]) }

/-- `Gui.createWindow`: appends the name to the window list and returns
it (the method returns the name; no backend call is made). -/
def Gui.createWindow (g : Gui) (name : Name) : Gui × Name :=
  ({ g with windowList := g.windowList ++ [name] }, name)

/-- `Gui.createScene`: appends a fresh `Scene(sceneName)` with no
recording handle. -/
def Gui.createScene (g : Gui) (sceneName : Name) : Gui :=
  { g with sceneList := g.sceneList ++ [Scene.mk sceneName none] }

/-- `Gui.addSceneToWindow(sceneName, wid)`: `False` if the scene or the
window is unknown (checked in that order); otherwise acquires
`rr.new_recording(application_id=wid, recording_id=sceneName)` and
assigns it to the scene via `setRec`. -/
def Gui.addSceneToWindow (g : Gui) (sceneName wid : Name) : Bool × Gui :=
  match g.getSceneIndex sceneName with
  | none => (false, g)
  | some index =>
    if wid ∈ g.windowList then
      match g.sceneList.get? index with
      | some sc =>
        (true, { g with sceneList := g.sceneList.set index (sc.setRec ⟨wid, sceneName⟩) })
      | none => (false, g)
    else (false, g)

/-- The fall-through branch of `Gui._parseEntity`: register the entity
under the full given name with an empty membership set, waiting for
`addToGroup`; no backend call. -/
def Gui.parseDeferred (g : Gui) (archetypeName : Name) (archetype : Payload)
    (entityType : Archetype) : OpResult :=
  ⟨.val true, g.appendEntity entityType ⟨archetypeName, archetype, []⟩, []⟩

/-- `Gui._parseEntity`, with the `return True` of its callers folded in
as the success outcome.  When the name has a `/` with a non-empty
remainder and the part before the first `/` is a registered scene, the
entity is registered under the remainder with that scene as its only
membership and is logged at once: through
`rr.log_file_from_path(path, rec.to_native())` for `MESH_FROM_PATH`
(an unbound recording makes `to_native` raise `AttributeError`, after
the registration already happened), through `rr.log` otherwise.
Any other name falls through to `parseDeferred`. -/
def Gui.parseEntity (g : Gui) (archetypeName : Name) (archetype : Payload)
    (entityType : Archetype) : OpResult :=
  match splitSceneName archetypeName with
  | some (sceneName, entityName) =>
    match g.getSceneIndex sceneName with
    | some sceneIndex =>
      let entity : Entity := ⟨entityName, archetype, [sceneIndex]⟩
      let g2 := g.appendEntity entityType entity
      if entityType = .MESH_FROM_PATH then
        match archetype.pathAttr with
        | none => ⟨.exn "AttributeError", g2, []⟩
        | some p =>
          match g2.recAt sceneIndex with
          | none => ⟨.exn "AttributeError", g2, []⟩
          | some r => ⟨.val true, g2, [.logFile p r.toNative]⟩
      else
        ⟨.val true, g2, [.log entityName archetype (g2.recAt sceneIndex)]⟩
    | none => g.parseDeferred archetypeName archetype entityType
  | none => g.parseDeferred archetypeName archetype entityType

/-- `Gui.addFloor`. -/
def Gui.addFloor (g : Gui) (floorName : Name) : OpResult :=
  g.parseEntity floorName (.boxes3d [[200, 200, 0.5]] [[125, 125, 125]] []) .BOXES3D

/-- `Gui.addBox`. -/
def Gui.addBox (g : Gui) (boxName : Name) (s1 s2 s3 : Rat) (rgba : List Rat) : OpResult :=
  g.parseEntity boxName (.boxes3d [[s1, s2, s3]] [rgba] [boxName]) .BOXES3D

/-- `Gui.addArrow`. -/
def Gui.addArrow (g : Gui) (name : Name) (radius length : Rat) (rgba : List Rat) : OpResult :=
  g.parseEntity name (.arrows3d [[radius]] length [rgba] [name]) .ARROWS3D

/-- `Gui.addCapsule`. -/
def Gui.addCapsule (g : Gui) (name : Name) (radius height : Rat) (rgba : List Rat) : OpResult :=
  g.parseEntity name (.capsules3d [height] [radius] [rgba]) .CAPSULES3D

/-- `Gui.addLine`. -/
def Gui.addLine (g : Gui) (lineName : Name) (pos1 pos2 : List Rat) (rgba : List Rat) : OpResult :=
  g.parseEntity lineName (.lineStrips3d [[pos1, pos2]] [0.1] [rgba] [lineName]) .LINESTRIPS3D

/-- `Gui.addSquareFace`. -/
def Gui.addSquareFace (g : Gui) (faceName : Name) (pos1 pos2 pos3 pos4 : List Rat)
    (rgba : List Rat) : OpResult :=
  g.parseEntity faceName
    (.mesh3d [pos1, pos2, pos3, pos4] [[0, 1, 2], [0, 1, 3], [0, 2, 3], [1, 2, 3]] [rgba])
    .MESH3D

/-- `Gui.addTriangleFace`. -/
def Gui.addTriangleFace (g : Gui) (faceName : Name) (pos1 pos2 pos3 : List Rat)
    (rgba : List Rat) : OpResult :=
  g.parseEntity faceName (.mesh3d [pos1, pos2, pos3] [] [rgba]) .MESH3D

/-- `Gui.addSphere`. -/
def Gui.addSphere (g : Gui) (sphereName : Name) (radius : Rat) (rgba : List Rat) : OpResult :=
  g.parseEntity sphereName (.points3d [[0, 0, 0]] [[radius]] [rgba] [sphereName]) .POINTS3D

/-- Modelled from the spec: the mesh-from-external-file creation call of
the repository (absent from `src/`, where only `_parseEntity` and
`_logArchetype` handle its `MESH_FROM_PATH` kind).  Spec sections 4.4 and
6: it constructs the mesh-from-path payload from the file path and
follows the same creation protocol as every other primitive. -/
def Gui.addMesh (g : Gui) (meshName : Name) (meshPath : Name) : OpResult :=
  g.parseEntity meshName (.meshFromPath meshPath) .MESH_FROM_PATH

/-- `Gui._logArchetype(entityName, groupName)`.  Dispatch on the payload
class of the found entity (the `isinstance` chain): `MeshFromPath` goes
through `rr.log_file_from_path` with the native handle and returns
without touching the membership set; every other payload class adds the
scene to the entity's membership and issues `rr.log` with the (possibly
`None`) recording of the scene.  A `None` recording makes the
`MeshFromPath` branch raise (`rec.to_native()` on `None`).  The two
`exn` fall-backs for a missing entity or scene are unreachable from
`addToGroup`, the only caller, which has already checked both. -/
def Gui.logArchetype (g : Gui) (entityName groupName : Name) : OpResult :=
  match g.findEntity entityName with
  | none => ⟨.exn "AttributeError", g, []⟩
  | some (a, i, entity) =>
    let recording := g.getRecording groupName
    match entity.archetype with
    | .meshFromPath p =>
      match recording with
      | none => ⟨.exn "AttributeError", g, []⟩
      | some r => ⟨.val true, g, [.logFile p r.toNative]⟩
    | _ =>
      match g.getSceneIndex groupName with
      | none => ⟨.exn "IndexError", g, []⟩
      | some sceneIndex =>
        let entity2 := entity.addScene sceneIndex
        let g2 := g.setEntityAt a i entity2
        ⟨.val true, g2, [.log entity2.name entity2.archetype recording]⟩

/-- `Gui.addToGroup(nodeName, groupName)`: `False` if the scene is
unknown, `False` if the entity is unknown, otherwise `_logArchetype`. -/
def Gui.addToGroup (g : Gui) (nodeName groupName : Name) : OpResult :=
  match g.getSceneIndex groupName with
  | none => ⟨.val false, g, []⟩
  | some _ =>
    match g.getEntity nodeName with
    | none => ⟨.val false, g, []⟩
    | some _ => g.logArchetype nodeName groupName

/-- The inner `createArrow` of `Gui.resizeArrow`: a fresh `rr.Arrows3D`
with `radii=[[radius]]`, vectors from `length`, the given colors and
`labels=[arrowName]` (the full name as passed to `resizeArrow`). -/
def createArrow (arrowName : Name) (radius length : Rat) (colors : Colors) : Payload :=
  .arrows3d [[radius]] length colors [arrowName]

/-- The bare-name branch of `Gui.resizeArrow`: global entity lookup;
`False` when the name is unknown; otherwise the colors of the existing
payload are read (`entity.archetype.colors`, an `AttributeError` on the
mesh payloads), the payload is replaced by a rebuilt arrow, and one
`rr.log` is issued per scene of the membership set (none when the set is
empty). -/
def Gui.resizeBare (g : Gui) (arrowName : Name) (radius length : Rat) : OpResult :=
  match g.findEntity arrowName with
  | none => ⟨.val false, g, []⟩
  | some (a, i, entity) =>
    match entity.archetype.colorsAttr with
    | none => ⟨.exn "AttributeError", g, []⟩
    | some cols =>
      let newArrow := createArrow arrowName radius length cols
      let g2 := g.setEntityAt a i { entity with archetype := newArrow }
      ⟨.val true, g2, entity.scenes.map fun si => .log entity.name newArrow (g.recAt si)⟩

/-- `Gui.resizeArrow(arrowName, radius, length)`.  The name is split
exactly as in `_parseEntity`; when the part before the first `/` is a
registered scene, the remainder is looked up globally and, only if the
found entity is a member of that scene, its payload is rebuilt (colors
copied from the old payload) and logged to that one scene; a missing or
non-member entity yields `False` with nothing mutated.  Any
non-resolvable name goes through the bare-name branch. -/
def Gui.resizeArrow (g : Gui) (arrowName : Name) (radius length : Rat) : OpResult :=
  match splitSceneName arrowName with
  | some (sceneName, entityName) =>
    match g.getSceneIndex sceneName with
    | some sceneIndex =>
      match g.findEntity entityName with
      | some (a, i, entity) =>
        if isEntityInScene entity sceneIndex then
          match entity.archetype.colorsAttr with
          | none => ⟨.exn "AttributeError", g, []⟩
          | some cols =>
            let newArrow := createArrow arrowName radius length cols
            let g2 := g.setEntityAt a i { entity with archetype := newArrow }
            ⟨.val true, g2, [.log entity.name newArrow (g.recAt sceneIndex)]⟩
        else ⟨.val false, g, []⟩
      | none => ⟨.val false, g, []⟩
    | none => g.resizeBare arrowName radius length
  | none => g.resizeBare arrowName radius length

/-- One primitive-creation call of the public API, with its arguments. -/
inductive PrimCall where
  | floor (name : Name)
  | box (name : Name) (s1 s2 s3 : Rat) (rgba : List Rat)
  | arrow (name : Name) (radius length : Rat) (rgba : List Rat)
  | capsule (name : Name) (radius height : Rat) (rgba : List Rat)
  | line (name : Name) (pos1 pos2 : List Rat) (rgba : List Rat)
  | squareFace (name : Name) (pos1 pos2 pos3 pos4 : List Rat) (rgba : List Rat)
  | triangleFace (name : Name) (pos1 pos2 pos3 : List Rat) (rgba : List Rat)
  | sphere (name : Name) (radius : Rat) (rgba : List Rat)
  | mesh (name : Name) (path : Name)
deriving DecidableEq

/-- The name argument of a primitive-creation call. -/
def PrimCall.name : PrimCall → Name
  | .floor n => n
  | .box n _ _ _ _ => n
  | .arrow n _ _ _ => n
  | .capsule n _ _ _ => n
  | .line n _ _ _ => n
  | .squareFace n _ _ _ _ _ => n
  | .triangleFace n _ _ _ _ => n
  | .sphere n _ _ => n
  | .mesh n _ => n

/-- The payload a primitive-creation call constructs (step 2 of the
creation protocol, spec section 4.4). -/
def PrimCall.payload : PrimCall → Payload
  | .floor _ => .boxes3d [[200, 200, 0.5]] [[125, 125, 125]] []
  | .box n s1 s2 s3 rgba => .boxes3d [[s1, s2, s3]] [rgba] [n]
  | .arrow n radius length rgba => .arrows3d [[radius]] length [rgba] [n]
  | .capsule _ radius height rgba => .capsules3d [height] [radius] [rgba]
  | .line n p1 p2 rgba => .lineStrips3d [[p1, p2]] [0.1] [rgba] [n]
  | .squareFace _ p1 p2 p3 p4 rgba =>
      .mesh3d [p1, p2, p3, p4] [[0, 1, 2], [0, 1, 3], [0, 2, 3], [1, 2, 3]] [rgba]
  | .triangleFace _ p1 p2 p3 rgba => .mesh3d [p1, p2, p3] [] [rgba]
  | .sphere n radius rgba => .points3d [[0, 0, 0]] [[radius]] [rgba] [n]
  | .mesh _ p => .meshFromPath p

/-- The archetype kind of a primitive-creation call. -/
def PrimCall.kind : PrimCall → Archetype
  | .floor _ => .BOXES3D
  | .box _ _ _ _ _ => .BOXES3D
  | .arrow _ _ _ _ => .ARROWS3D
  | .capsule _ _ _ _ => .CAPSULES3D
  | .line _ _ _ _ => .LINESTRIPS3D
  | .squareFace _ _ _ _ _ _ => .MESH3D
  | .triangleFace _ _ _ _ _ => .MESH3D
  | .sphere _ _ _ => .POINTS3D
  | .mesh _ _ => .MESH_FROM_PATH

/-- Run a primitive-creation call against a state. -/
def runPrim (g : Gui) : PrimCall → OpResult
  | .floor n => g.addFloor n
  | .box n s1 s2 s3 rgba => g.addBox n s1 s2 s3 rgba
  | .arrow n radius length rgba => g.addArrow n radius length rgba
  | .capsule n radius height rgba => g.addCapsule n radius height rgba
  | .line n p1 p2 rgba => g.addLine n p1 p2 rgba
  | .squareFace n p1 p2 p3 p4 rgba => g.addSquareFace n p1 p2 p3 p4 rgba
  | .triangleFace n p1 p2 p3 rgba => g.addTriangleFace n p1 p2 p3 rgba
  | .sphere n radius rgba => g.addSphere n radius rgba
  | .mesh n p => g.addMesh n p

/-! ## Basic lemmas about the registry search functions -/

theorem findSlash_append (s e : Name) (hs : '/' ∉ s) :
    findSlash (s ++ '/' :: e) = some s.length := by
  induction s with
  | nil => simp [findSlash]
  | cons c cs ih =>
    have hc : ¬ c = '/' := fun h => hs (by simp [h])
    have hcs : '/' ∉ cs := fun h => hs (List.mem_cons_of_mem _ h)
    simp [findSlash, hc, ih hcs]

theorem splitSceneName_append (s e : Name) (hs : '/' ∉ s) (he : e ≠ []) :
    splitSceneName (s ++ '/' :: e) = some (s, e) := by
  have hne : ¬ s.length = (s ++ '/' :: e).length - 1 := by
    have h1 : (s ++ '/' :: e).length = s.length + e.length + 1 := by
      simp [List.length_append]; omega
    have h2 : e.length ≠ 0 := fun h => he (List.length_eq_zero.mp h)
    omega
  have htake : (s ++ '/' :: e).take s.length = s := List.take_left s _
  have hdrop : (s ++ '/' :: e).drop (s.length + 1) = e := by
    have h1 : s ++ '/' :: e = (s ++ ['/']) ++ e := by simp
    have h2 : (s ++ ['/']).length = s.length + 1 := by simp
    rw [h1, ← h2]
    exact List.drop_left _ _
  simp only [splitSceneName, findSlash_append s e hs, if_neg hne, htake, hdrop]

theorem getSceneIndexList_get (n : Name) (l : List Scene) (i : Nat)
    (h : getSceneIndexList n l = some i) :
    ∃ sc, l.get? i = some sc ∧ sc.name = n := by
  induction l generalizing i with
  | nil => simp [getSceneIndexList] at h
  | cons s rest ih =>
    by_cases hn : s.name = n
    · simp only [getSceneIndexList, if_pos hn, Option.some.injEq] at h
      subst h
      exact ⟨s, rfl, hn⟩
    · simp only [getSceneIndexList, if_neg hn] at h
      cases hrec : getSceneIndexList n rest with
      | none => rw [hrec] at h; exact absurd h (by simp)
      | some j =>
        rw [hrec] at h
        simp only [Option.some.injEq] at h
        subst h
        obtain ⟨sc, h1, h2⟩ := ih j hrec
        exact ⟨sc, by simpa using h1, h2⟩

theorem findRec_recAt (n : Name) (l : List Scene) (i : Nat)
    (h : getSceneIndexList n l = some i) :
    findRec n l = (l.get? i).bind fun s => s.recording := by
  induction l generalizing i with
  | nil => simp [getSceneIndexList] at h
  | cons s rest ih =>
    by_cases hn : s.name = n
    · simp only [getSceneIndexList, if_pos hn, Option.some.injEq] at h
      subst h
      simp [findRec, hn]
    · simp only [getSceneIndexList, if_neg hn] at h
      cases hrec : getSceneIndexList n rest with
      | none => rw [hrec] at h; exact absurd h (by simp)
      | some j =>
        rw [hrec] at h
        simp only [Option.some.injEq] at h
        subst h
        rw [findRec, if_neg hn, ih j hrec]
        simp

theorem getRecording_eq_recAt (g : Gui) (n : Name) (i : Nat)
    (h : g.getSceneIndex n = some i) :
    g.getRecording n = g.recAt i :=
  findRec_recAt n g.sceneList i h

theorem entityFindInBucket_get (n : Name) (b : List Entity) (i : Nat) (e : Entity)
    (h : entityFindInBucket n b = some (i, e)) :
    b.get? i = some e ∧ e.name = n := by
  induction b generalizing i e with
  | nil => simp [entityFindInBucket] at h
  | cons e0 rest ih =>
    by_cases hn : e0.name = n
    · simp only [entityFindInBucket, if_pos hn, Option.some.injEq, Prod.mk.injEq] at h
      obtain ⟨rfl, rfl⟩ := h
      exact ⟨rfl, hn⟩
    · simp only [entityFindInBucket, if_neg hn] at h
      cases hrec : entityFindInBucket n rest with
      | none => rw [hrec] at h; exact absurd h (by simp)
      | some p =>
        obtain ⟨j, e2⟩ := p
        rw [hrec] at h
        simp only [Option.some.injEq, Prod.mk.injEq] at h
        obtain ⟨rfl, rfl⟩ := h
        obtain ⟨hg, hname⟩ := ih j e2 hrec
        exact ⟨by simpa using hg, hname⟩

theorem entityFindInBucket_set (n : Name) (b : List Entity) (i : Nat) (e e2 : Entity)
    (h : entityFindInBucket n b = some (i, e)) (h2 : e2.name = n) :
    entityFindInBucket n (b.set i e2) = some (i, e2) := by
  induction b generalizing i e with
  | nil => simp [entityFindInBucket] at h
  | cons e0 rest ih =>
    by_cases hn : e0.name = n
    · simp only [entityFindInBucket, if_pos hn, Option.some.injEq, Prod.mk.injEq] at h
      obtain ⟨rfl, rfl⟩ := h
      show entityFindInBucket n (e2 :: rest) = some (0, e2)
      simp [entityFindInBucket, h2]
    · simp only [entityFindInBucket, if_neg hn] at h
      cases hrec : entityFindInBucket n rest with
      | none => rw [hrec] at h; exact absurd h (by simp)
      | some p =>
        obtain ⟨j, e3⟩ := p
        rw [hrec] at h
        simp only [Option.some.injEq, Prod.mk.injEq] at h
        obtain ⟨rfl, rfl⟩ := h
        show entityFindInBucket n (e0 :: rest.set j e2) = some (j + 1, e2)
        simp only [entityFindInBucket, if_neg hn]
        rw [ih j e3 hrec]

theorem EntityTable.get_set_self (t : EntityTable) (a : Archetype) (l : List Entity) :
    (t.set a l).get a = l := by
  cases a <;> rfl

theorem EntityTable.get_set_ne (t : EntityTable) (a b : Archetype) (l : List Entity)
    (h : ¬ a = b) : (t.set a l).get b = t.get b := by
  cases a <;> cases b <;> first | exact absurd rfl h | rfl

theorem EntityTable.set_get_self (t : EntityTable) (a : Archetype) :
    t.set a (t.get a) = t := by
  cases a <;> rfl

theorem entityFindAux_bucket (n : Name) (t : EntityTable) (order : List Archetype)
    (a : Archetype) (i : Nat) (e : Entity)
    (h : entityFindAux n t order = some (a, i, e)) :
    entityFindInBucket n (t.get a) = some (i, e) := by
  induction order with
  | nil => simp [entityFindAux] at h
  | cons a0 rest ih =>
    cases hb : entityFindInBucket n (t.get a0) with
    | some p =>
      obtain ⟨i0, e0⟩ := p
      simp only [entityFindAux, hb, Option.some.injEq, Prod.mk.injEq] at h
      obtain ⟨rfl, rfl, rfl⟩ := h
      exact hb
    | none =>
      simp only [entityFindAux, hb] at h
      exact ih h

theorem entityFindAux_set (n : Name) (t : EntityTable) (order : List Archetype)
    (a : Archetype) (i : Nat) (e e2 : Entity)
    (h : entityFindAux n t order = some (a, i, e)) (h2 : e2.name = n) :
    entityFindAux n (t.set a ((t.get a).set i e2)) order = some (a, i, e2) := by
  induction order with
  | nil => simp [entityFindAux] at h
  | cons a0 rest ih =>
    cases hb : entityFindInBucket n (t.get a0) with
    | some p =>
      obtain ⟨i0, e0⟩ := p
      simp only [entityFindAux, hb, Option.some.injEq, Prod.mk.injEq] at h
      obtain ⟨rfl, rfl, rfl⟩ := h
      simp only [entityFindAux, EntityTable.get_set_self]
      rw [entityFindInBucket_set n _ _ _ e2 hb h2]
    | none =>
      simp only [entityFindAux, hb] at h
      have hbk : entityFindInBucket n (t.get a) = some (i, e) :=
        entityFindAux_bucket n t rest a i e h
      have hne : ¬ a = a0 := by
        intro hq
        rw [hq, hb] at hbk
        exact absurd hbk (by simp)
      simp only [entityFindAux, EntityTable.get_set_ne t a a0 _ hne, hb]
      exact ih h

theorem findEntity_name (g : Gui) (n : Name) (a : Archetype) (i : Nat) (e : Entity)
    (h : g.findEntity n = some (a, i, e)) : e.name = n :=
  (entityFindInBucket_get n _ i e (entityFindAux_bucket n g.entityList bucketOrder a i e h)).2

theorem findEntity_setEntityAt (g : Gui) (n : Name) (a : Archetype) (i : Nat) (e e2 : Entity)
    (h : g.findEntity n = some (a, i, e)) (h2 : e2.name = n) :
    (g.setEntityAt a i e2).findEntity n = some (a, i, e2) :=
  entityFindAux_set n g.entityList bucketOrder a i e e2 h h2

theorem setEntityAt_sceneList (g : Gui) (a : Archetype) (i : Nat) (e : Entity) :
    (g.setEntityAt a i e).sceneList = g.sceneList := rfl

theorem list_set_self {α : Type} (l : List α) (i : Nat) (x : α)
    (h : l.get? i = some x) : l.set i x = l := by
  induction l generalizing i with
  | nil => simp at h
  | cons y rest ih =>
    cases i with
    | zero =>
      simp only [List.get?, Option.some.injEq] at h
      subst h
      rfl
    | succ j =>
      simp only [List.get?] at h
      show y :: rest.set j x = y :: rest
      rw [ih j h]

theorem addScene_mem_self (e : Entity) (si : Nat) :
    si ∈ (e.addScene si).scenes := by
  by_cases h : si ∈ e.scenes
  · simp [Entity.addScene, h]
  · simp [Entity.addScene, h]

theorem addScene_of_mem (e : Entity) (si : Nat) (h : si ∈ e.scenes) :
    e.addScene si = e := by
  simp [Entity.addScene, h]

theorem addScene_name (e : Entity) (si : Nat) : (e.addScene si).name = e.name := by
  by_cases h : si ∈ e.scenes <;> simp [Entity.addScene, h]

theorem addScene_archetype (e : Entity) (si : Nat) :
    (e.addScene si).archetype = e.archetype := by
  by_cases h : si ∈ e.scenes <;> simp [Entity.addScene, h]

/-! ## Reduction lemmas for the operations -/

theorem parseEntity_immediate (g : Gui) (name s e : Name) (si : Nat) (p : Payload)
    (k : Archetype)
    (hsplit : splitSceneName name = some (s, e)) (hsc : g.getSceneIndex s = some si)
    (hk : ¬ k = .MESH_FROM_PATH) :
    g.parseEntity name p k =
      ⟨.val true, g.appendEntity k ⟨e, p, [si]⟩, [.log e p (g.recAt si)]⟩ := by
  simp only [Gui.parseEntity, hsplit, hsc, if_neg hk]
  rfl

theorem parseEntity_mesh_bound (g : Gui) (name s e path : Name) (si : Nat) (r : Recording)
    (hsplit : splitSceneName name = some (s, e)) (hsc : g.getSceneIndex s = some si)
    (hrec : g.recAt si = some r) :
    g.parseEntity name (.meshFromPath path) .MESH_FROM_PATH =
      ⟨.val true, g.appendEntity .MESH_FROM_PATH ⟨e, .meshFromPath path, [si]⟩,
        [.logFile path r.toNative]⟩ := by
  have hrec2 : (g.appendEntity .MESH_FROM_PATH ⟨e, .meshFromPath path, [si]⟩).recAt si = some r :=
    hrec
  simp only [Gui.parseEntity, hsplit, hsc, Payload.pathAttr, hrec2, if_pos]

theorem parseEntity_mesh_unbound (g : Gui) (name s e path : Name) (si : Nat)
    (hsplit : splitSceneName name = some (s, e)) (hsc : g.getSceneIndex s = some si)
    (hrec : g.recAt si = none) :
    g.parseEntity name (.meshFromPath path) .MESH_FROM_PATH =
      ⟨.exn "AttributeError", g.appendEntity .MESH_FROM_PATH ⟨e, .meshFromPath path, [si]⟩,
        []⟩ := by
  have hrec2 : (g.appendEntity .MESH_FROM_PATH ⟨e, .meshFromPath path, [si]⟩).recAt si = none :=
    hrec
  simp only [Gui.parseEntity, hsplit, hsc, Payload.pathAttr, hrec2, if_pos]

theorem parseEntity_deferred (g : Gui) (name : Name) (p : Payload) (k : Archetype)
    (h : splitSceneName name = none
       ∨ ∃ s e, splitSceneName name = some (s, e) ∧ g.getSceneIndex s = none) :
    g.parseEntity name p k = ⟨.val true, g.appendEntity k ⟨name, p, []⟩, []⟩ := by
  rcases h with h | ⟨s, e, h1, h2⟩
  · simp only [Gui.parseEntity, h, Gui.parseDeferred]
  · simp only [Gui.parseEntity, h1, h2, Gui.parseDeferred]

theorem runPrim_eq (g : Gui) (c : PrimCall) :
    runPrim g c = g.parseEntity c.name c.payload c.kind := by
  cases c <;> rfl

theorem getEntity_of_findEntity (g : Gui) (n : Name) (a : Archetype) (i : Nat) (e : Entity)
    (h : g.findEntity n = some (a, i, e)) : g.getEntity n = some e := by
  simp only [Gui.getEntity, h, Option.map_some']

theorem EntityTable.set_set (t : EntityTable) (a : Archetype) (l1 l2 : List Entity) :
    (t.set a l1).set a l2 = t.set a l2 := by
  cases a <;> rfl

theorem setEntityAt_setEntityAt (g : Gui) (a : Archetype) (i : Nat) (e1 e2 : Entity) :
    (g.setEntityAt a i e1).setEntityAt a i e2 = g.setEntityAt a i e2 := by
  unfold Gui.setEntityAt
  simp only [EntityTable.get_set_self, List.set_set, EntityTable.set_set]

theorem logArchetype_nonMesh (g : Gui) (en sn : Name) (a : Archetype) (i : Nat)
    (ent : Entity) (si : Nat)
    (hent : g.findEntity en = some (a, i, ent))
    (hsc : g.getSceneIndex sn = some si)
    (hmesh : ∀ p, ¬ ent.archetype = .meshFromPath p) :
    g.logArchetype en sn =
      ⟨.val true, g.setEntityAt a i (ent.addScene si),
        [.log ent.name ent.archetype (g.getRecording sn)]⟩ := by
  have hgoal : g.logArchetype en sn =
      ⟨.val true, g.setEntityAt a i (ent.addScene si),
        [.log (ent.addScene si).name (ent.addScene si).archetype (g.getRecording sn)]⟩ := by
    cases harch : ent.archetype <;>
      first
        | exact absurd harch (hmesh _)
        | simp only [Gui.logArchetype, hent, harch, hsc]
  rw [hgoal, addScene_name, addScene_archetype]

theorem logArchetype_mesh_bound (g : Gui) (en sn : Name) (a : Archetype) (i : Nat)
    (ent : Entity) (p : Name) (r : Recording)
    (hent : g.findEntity en = some (a, i, ent))
    (harch : ent.archetype = .meshFromPath p)
    (hrec : g.getRecording sn = some r) :
    g.logArchetype en sn = ⟨.val true, g, [.logFile p r.toNative]⟩ := by
  simp only [Gui.logArchetype, hent, harch, hrec]

theorem logArchetype_mesh_unbound (g : Gui) (en sn : Name) (a : Archetype) (i : Nat)
    (ent : Entity) (p : Name)
    (hent : g.findEntity en = some (a, i, ent))
    (harch : ent.archetype = .meshFromPath p)
    (hrec : g.getRecording sn = none) :
    g.logArchetype en sn = ⟨.exn "AttributeError", g, []⟩ := by
  simp only [Gui.logArchetype, hent, harch, hrec]

theorem addToGroup_nonMesh (g : Gui) (en sn : Name) (a : Archetype) (i : Nat)
    (ent : Entity) (si : Nat)
    (hent : g.findEntity en = some (a, i, ent))
    (hsc : g.getSceneIndex sn = some si)
    (hmesh : ∀ p, ¬ ent.archetype = .meshFromPath p) :
    g.addToGroup en sn =
      ⟨.val true, g.setEntityAt a i (ent.addScene si),
        [.log ent.name ent.archetype (g.getRecording sn)]⟩ := by
  have hge : g.getEntity en = some ent := getEntity_of_findEntity g en a i ent hent
  simp only [Gui.addToGroup, hsc, hge]
  exact logArchetype_nonMesh g en sn a i ent si hent hsc hmesh

theorem addToGroup_mesh_bound_run (g : Gui) (en sn : Name) (a : Archetype) (i : Nat)
    (ent : Entity) (p : Name) (si : Nat) (r : Recording)
    (hent : g.findEntity en = some (a, i, ent))
    (harch : ent.archetype = .meshFromPath p)
    (hsc : g.getSceneIndex sn = some si)
    (hrec : g.getRecording sn = some r) :
    g.addToGroup en sn = ⟨.val true, g, [.logFile p r.toNative]⟩ := by
  have hge : g.getEntity en = some ent := getEntity_of_findEntity g en a i ent hent
  simp only [Gui.addToGroup, hsc, hge]
  exact logArchetype_mesh_bound g en sn a i ent p r hent harch hrec

theorem addSceneToWindow_run (g : Gui) (s w : Name) (si : Nat)
    (hsc : g.getSceneIndex s = some si) (hw : w ∈ g.windowList) :
    ∃ sc, g.sceneList.get? si = some sc ∧
      g.addSceneToWindow s w =
        (true, { g with sceneList := g.sceneList.set si (sc.setRec ⟨w, s⟩) }) := by
  obtain ⟨sc, hget, _⟩ := getSceneIndexList_get s g.sceneList si hsc
  refine ⟨sc, hget, ?_⟩
  simp only [Gui.addSceneToWindow, hsc, if_pos hw, hget]

theorem list_get?_set_self {α : Type} (l : List α) (i : Nat) (x y : α)
    (h : l.get? i = some x) : (l.set i y).get? i = some y := by
  induction l generalizing i with
  | nil => simp at h
  | cons z rest ih =>
    cases i with
    | zero => rfl
    | succ j =>
      simp only [List.get?] at h
      show (rest.set j y).get? j = some y
      exact ih j h

/-! ## Claim theorems -/

/-- C2: for every primitive-creation call whose name argument contains no
slash, or whose first slash is the final character, or whose part before
the first slash does not match any registered scene, the operation
registers an entity under the full given name (interior slashes
preserved) with an empty scene-membership set, returns success and issues
no backend log call. -/
theorem prim_creation_deferred (g : Gui) (c : PrimCall)
    (h : findSlash c.name = none
       ∨ (∃ i, findSlash c.name = some i ∧ i = c.name.length - 1)
       ∨ (∃ s e, splitSceneName c.name = some (s, e) ∧ g.getSceneIndex s = none)) :
    runPrim g c = ⟨.val true, g.appendEntity c.kind ⟨c.name, c.payload, []⟩, []⟩ := by
  rw [runPrim_eq]
  apply parseEntity_deferred
  rcases h with h | ⟨i, h1, h2⟩ | h
  · left; simp [splitSceneName, h]
  · left; simp [splitSceneName, h1, h2]
  · right; exact h

/-- Witness for C2: `addSphere("s1", ...)` on a fresh registry registers
`s1` with no scene membership, no backend call. -/
theorem prim_creation_deferred_witness :
    runPrim Gui.init (.sphere ['s', '1'] 2 [0, 255, 0, 255]) =
      ⟨.val true,
        Gui.init.appendEntity .POINTS3D
          ⟨['s', '1'], .points3d [[0, 0, 0]] [[2]] [[0, 255, 0, 255]] [['s', '1']], []⟩,
        []⟩ :=
  prim_creation_deferred Gui.init (.sphere ['s', '1'] 2 [0, 255, 0, 255]) (Or.inl (by decide))

/-- C3: `addToGroup(e, s)` fails with `False` whenever the scene is not
registered (whatever the entity) or the entity is not registered
(whatever the scene); the registry is not mutated and no backend call is
made. -/
theorem addToGroup_unknown_fails (g : Gui) (en sn : Name)
    (h : g.getSceneIndex sn = none ∨ g.getEntity en = none) :
    g.addToGroup en sn = ⟨.val false, g, []⟩ := by
  rcases h with h | h
  · simp only [Gui.addToGroup, h]
  · cases hsc : g.getSceneIndex sn with
    | none => simp only [Gui.addToGroup, hsc]
    | some si => simp only [Gui.addToGroup, hsc, h]

/-- Witness for C3: an unknown entity against a registered scene fails
and changes nothing. -/
theorem addToGroup_unknown_fails_witness :
    (Gui.init.createScene ['s']).addToGroup ['x'] ['s'] =
      ⟨.val false, Gui.init.createScene ['s'], []⟩ :=
  addToGroup_unknown_fails (Gui.init.createScene ['s']) ['x'] ['s'] (Or.inr (by decide))

/-- Counterexample to C7: binding scene `a` to window `u` sets its
recording handle to `(u, a)`; a later bind of `a` to window `v` replaces
it with `(v, a)`, a different handle — the handle is not preserved once
set. -/
theorem recording_handle_overwritten :
    ((((Gui.init.createScene ['a']).createWindow ['u']).1.createWindow ['v']).1.addSceneToWindow
        ['a'] ['u']).2.recAt 0 = some ⟨['u'], ['a']⟩
    ∧ (((((Gui.init.createScene ['a']).createWindow ['u']).1.createWindow
        ['v']).1.addSceneToWindow ['a'] ['u']).2.addSceneToWindow ['a'] ['v']).2.recAt 0 =
      some ⟨['v'], ['a']⟩
    ∧ (⟨['v'], ['a']⟩ : Recording) ≠ ⟨['u'], ['a']⟩ :=
  ⟨by decide, by decide, by decide⟩

/-- C7 as amended: every successful `addSceneToWindow(s, w)` sets the
scene's recording handle to the fresh handle keyed by `(w, s)`,
irrespective of any handle the scene already had — a rebind overwrites
the handle rather than preserving it. -/
theorem addSceneToWindow_overwrites (g : Gui) (s w : Name) (si : Nat)
    (hsc : g.getSceneIndex s = some si) (hw : w ∈ g.windowList) :
    (g.addSceneToWindow s w).2.recAt si = some ⟨w, s⟩ := by
  obtain ⟨sc, hget, hrun⟩ := addSceneToWindow_run g s w si hsc hw
  rw [hrun]
  show ((g.sceneList.set si (sc.setRec ⟨w, s⟩)).get? si).bind (fun x => x.recording) =
    some ⟨w, s⟩
  rw [list_get?_set_self g.sceneList si sc _ hget]
  rfl

/-- Witness for the amended C7, at a state where the handle is already
set: rebinding scene `a` (bound to `u`) to window `v` leaves the handle
at `(v, a)`. -/
theorem addSceneToWindow_overwrites_witness :
    (((((Gui.init.createScene ['a']).createWindow ['u']).1.createWindow
        ['v']).1.addSceneToWindow ['a'] ['u']).2.addSceneToWindow ['a'] ['v']).2.recAt 0 =
      some ⟨['v'], ['a']⟩ :=
  addSceneToWindow_overwrites
    ((((Gui.init.createScene ['a']).createWindow ['u']).1.createWindow
        ['v']).1.addSceneToWindow ['a'] ['u']).2
    ['a'] ['v'] 0 (by decide) (by decide)

/-- C8: `addSceneToWindow` fails leaving the state unchanged when the
scene or the window is unregistered; otherwise it returns `True` and the
scene now holds the backend handle keyed by the window name as
application id and the scene name as recording id. -/
theorem addSceneToWindow_spec (g : Gui) (s w : Name) :
    (g.getSceneIndex s = none → g.addSceneToWindow s w = (false, g))
    ∧ (∀ si, g.getSceneIndex s = some si → ¬ w ∈ g.windowList →
        g.addSceneToWindow s w = (false, g))
    ∧ (∀ si, g.getSceneIndex s = some si → w ∈ g.windowList →
        (g.addSceneToWindow s w).1 = true
        ∧ (g.addSceneToWindow s w).2.recAt si = some ⟨w, s⟩) := by
  refine ⟨?_, ?_, ?_⟩
  · intro h
    simp only [Gui.addSceneToWindow, h]
  · intro si hsc hw
    simp only [Gui.addSceneToWindow, hsc, if_neg hw]
  · intro si hsc hw
    obtain ⟨sc, hget, hrun⟩ := addSceneToWindow_run g s w si hsc hw
    rw [hrun]
    refine ⟨rfl, ?_⟩
    show ((g.sceneList.set si (sc.setRec ⟨w, s⟩)).get? si).bind (fun x => x.recording) =
      some ⟨w, s⟩
    rw [list_get?_set_self g.sceneList si sc _ hget]
    rfl

/-- Witness for C8, the spec scenario: `createScene("world")`;
`createWindow("win")`; binding `world` to `win` returns `True` and leaves
scene `world` with the non-null handle `(win, world)`. -/
theorem addSceneToWindow_spec_witness :
    (((Gui.init.createScene ['w', 'o', 'r', 'l', 'd']).createWindow
        ['w', 'i', 'n']).1.addSceneToWindow ['w', 'o', 'r', 'l', 'd'] ['w', 'i', 'n']).1 = true
    ∧ (((Gui.init.createScene ['w', 'o', 'r', 'l', 'd']).createWindow
        ['w', 'i', 'n']).1.addSceneToWindow ['w', 'o', 'r', 'l', 'd'] ['w', 'i', 'n']).2.recAt 0 =
      some ⟨['w', 'i', 'n'], ['w', 'o', 'r', 'l', 'd']⟩ :=
  (addSceneToWindow_spec
    ((Gui.init.createScene ['w', 'o', 'r', 'l', 'd']).createWindow ['w', 'i', 'n']).1
    ['w', 'o', 'r', 'l', 'd'] ['w', 'i', 'n']).2.2 0 (by decide) (by decide)

theorem kind_mesh_payload (c : PrimCall) (h : c.kind = .MESH_FROM_PATH) :
    ∃ path, c.payload = .meshFromPath path := by
  cases c <;> first | exact ⟨_, rfl⟩ | simp [PrimCall.kind] at h

theorem payload_mesh_kind (c : PrimCall) (path : Name) (h : c.payload = .meshFromPath path) :
    c.kind = .MESH_FROM_PATH := by
  cases c <;> first | rfl | simp [PrimCall.payload] at h

theorem runPrim_scoped_nonMesh (g : Gui) (c : PrimCall) (s e : Name) (si : Nat)
    (hsplit : splitSceneName c.name = some (s, e))
    (hsc : g.getSceneIndex s = some si)
    (hk : ¬ c.kind = .MESH_FROM_PATH) :
    runPrim g c =
      ⟨.val true, g.appendEntity c.kind ⟨e, c.payload, [si]⟩,
        [.log e c.payload (g.recAt si)]⟩ := by
  rw [runPrim_eq]
  exact parseEntity_immediate g c.name s e si c.payload c.kind hsplit hsc hk

/-- Counterexample to C1: with scene `s` registered (index 0) but not yet
bound to a window, the mesh-from-path creation call on `"s/m"` registers
the entity (name `m`, membership exactly scene 0) but raises instead of
issuing a backend log call — zero backend calls are made, not exactly
one. -/
theorem creation_scoped_mesh_counterexample :
    (Gui.init.createScene ['s']).getSceneIndex ['s'] = some 0
    ∧ ((Gui.init.createScene ['s']).addMesh ['s', '/', 'm'] ['p']).events = []
    ∧ ((Gui.init.createScene ['s']).addMesh ['s', '/', 'm'] ['p']).ret = .exn "AttributeError"
    ∧ ((Gui.init.createScene ['s']).addMesh ['s', '/', 'm'] ['p']).gui.findEntity ['m'] =
      some (.MESH_FROM_PATH, 0, ⟨['m'], .meshFromPath ['p'], [0]⟩) :=
  ⟨by decide, by decide, by decide, by decide⟩

/-- C1 as amended: a primitive-creation call whose name is
`<scene>/<rest>` with `<rest>` non-empty and `<scene>` a registered scene
always registers an entity named `<rest>` whose membership set is exactly
that scene; for every kind except mesh-from-path it returns success and
issues exactly one generic log call against that scene's recording
handle; for mesh-from-path it issues exactly one file-load call with the
native form of the handle when the handle is set, and raises with no
backend call at all when the handle is unset. -/
theorem prim_creation_scoped (g : Gui) (c : PrimCall) (s e : Name) (si : Nat)
    (hname : c.name = s ++ '/' :: e) (hs : '/' ∉ s) (he : e ≠ [])
    (hsc : g.getSceneIndex s = some si) :
    (runPrim g c).gui = g.appendEntity c.kind ⟨e, c.payload, [si]⟩
    ∧ (¬ c.kind = .MESH_FROM_PATH →
        runPrim g c =
          ⟨.val true, g.appendEntity c.kind ⟨e, c.payload, [si]⟩,
            [.log e c.payload (g.recAt si)]⟩)
    ∧ (∀ path, c.payload = .meshFromPath path →
        (∀ r, g.recAt si = some r →
          runPrim g c =
            ⟨.val true, g.appendEntity c.kind ⟨e, c.payload, [si]⟩,
              [.logFile path r.toNative]⟩)
        ∧ (g.recAt si = none →
          runPrim g c =
            ⟨.exn "AttributeError", g.appendEntity c.kind ⟨e, c.payload, [si]⟩, []⟩)) := by
  have hsplit : splitSceneName c.name = some (s, e) := by
    rw [hname]
    exact splitSceneName_append s e hs he
  refine ⟨?_, ?_, ?_⟩
  · by_cases hk : c.kind = .MESH_FROM_PATH
    · obtain ⟨path, hpay⟩ := kind_mesh_payload c hk
      rw [runPrim_eq, hpay, hk]
      cases hrec : g.recAt si with
      | some r => rw [parseEntity_mesh_bound g c.name s e path si r hsplit hsc hrec]
      | none => rw [parseEntity_mesh_unbound g c.name s e path si hsplit hsc hrec]
    · rw [runPrim_scoped_nonMesh g c s e si hsplit hsc hk]
  · intro hk
    exact runPrim_scoped_nonMesh g c s e si hsplit hsc hk
  · intro path hpay
    have hk : c.kind = .MESH_FROM_PATH := payload_mesh_kind c path hpay
    constructor
    · intro r hrec
      rw [runPrim_eq, hpay, hk]
      rw [parseEntity_mesh_bound g c.name s e path si r hsplit hsc hrec]
    · intro hrec
      rw [runPrim_eq, hpay, hk]
      rw [parseEntity_mesh_unbound g c.name s e path si hsplit hsc hrec]

/-- Witness for the amended C1, the spec scenario `addBox("world/b1", ..)`
shape on a one-scene registry: the box is registered as `b` with
membership exactly scene 0 and one generic log call is issued against the
scene's (unset) handle. -/
theorem prim_creation_scoped_witness :
    runPrim (Gui.init.createScene ['s']) (.box ['s', '/', 'b'] 1 1 1 [255, 0, 0, 255]) =
      ⟨.val true,
        (Gui.init.createScene ['s']).appendEntity .BOXES3D
          ⟨['b'], .boxes3d [[1, 1, 1]] [[255, 0, 0, 255]] [['s', '/', 'b']], [0]⟩,
        [.log ['b'] (.boxes3d [[1, 1, 1]] [[255, 0, 0, 255]] [['s', '/', 'b']]) none]⟩ := by
  have h := prim_creation_scoped (Gui.init.createScene ['s'])
    (.box ['s', '/', 'b'] 1 1 1 [255, 0, 0, 255]) ['s'] ['b'] 0 (by decide) (by decide)
    (by decide) (by decide)
  exact h.2.1 (by decide)

/-- C5: on a name `<scene>/<rest>` whose scene part is registered,
`resizeArrow` fails with `False` — leaving the registry (hence the
entity's payload) unchanged and issuing no backend call — whenever the
entity `<rest>` does not exist or is not a member of that scene; success
therefore requires an existing entity already member of the scene. -/
theorem resizeArrow_scoped_requires_membership (g : Gui) (s e : Name)
    (radius len : Rat) (si : Nat)
    (hs : '/' ∉ s) (he : e ≠ []) (hsc : g.getSceneIndex s = some si)
    (h : g.findEntity e = none
       ∨ ∃ a i ent, g.findEntity e = some (a, i, ent) ∧ isEntityInScene ent si = false) :
    g.resizeArrow (s ++ '/' :: e) radius len = ⟨.val false, g, []⟩ := by
  have hsplit := splitSceneName_append s e hs he
  rcases h with h | ⟨a, i, ent, hent, hmem⟩
  · simp only [Gui.resizeArrow, hsplit, hsc, h]
  · simp [Gui.resizeArrow, hsplit, hsc, hent, hmem]

/-- Witness for C5, the spec scenario shape: an arrow `a` exists but was
never logged to scene `s`; `resizeArrow("s/a", ..)` fails and the state
(and so the arrow's payload) is unchanged. -/
theorem resizeArrow_scoped_requires_membership_witness :
    ((Gui.init.createScene ['s']).addArrow ['a'] 1 1 [1, 2, 3, 4]).gui.resizeArrow
        (['s'] ++ '/' :: ['a']) 1 2 =
      ⟨.val false, ((Gui.init.createScene ['s']).addArrow ['a'] 1 1 [1, 2, 3, 4]).gui, []⟩ :=
  resizeArrow_scoped_requires_membership
    ((Gui.init.createScene ['s']).addArrow ['a'] 1 1 [1, 2, 3, 4]).gui ['s'] ['a'] 1 2 0
    (by decide) (by decide) (by decide)
    (Or.inr ⟨.ARROWS3D, 0, ⟨['a'], .arrows3d [[1]] 1 [[1, 2, 3, 4]] [['a']], []⟩,
      by decide, by decide⟩)

/-- Counterexample to C6: a mesh-from-path entity `m` exists under a bare
name, yet `resizeArrow("m", ..)` does not replace its payload with a
rebuilt arrow — the colors attribute access raises, nothing is mutated
and nothing is logged (and the failure is not the NotFound `False`
either). -/
theorem resizeArrow_bare_mesh_counterexample :
    (Gui.init.addMesh ['m'] ['p']).gui.findEntity ['m'] =
        some (.MESH_FROM_PATH, 0, ⟨['m'], .meshFromPath ['p'], []⟩)
    ∧ ((Gui.init.addMesh ['m'] ['p']).gui.resizeArrow ['m'] 1 2).ret = .exn "AttributeError"
    ∧ ((Gui.init.addMesh ['m'] ['p']).gui.resizeArrow ['m'] 1 2).gui =
        (Gui.init.addMesh ['m'] ['p']).gui
    ∧ ((Gui.init.addMesh ['m'] ['p']).gui.resizeArrow ['m'] 1 2).events = [] :=
  ⟨by decide, by decide, by decide, by decide⟩

/-- C6 as amended: on a bare name (no resolvable scene part),
`resizeArrow` fails with `False` and no mutation when no entity of that
name exists; when the found entity's payload carries a colors attribute
(every kind but the two mesh payloads) the payload is replaced by the
rebuilt arrow (new radius and length, colors copied) and exactly one log
call is issued per scene of the current membership set — none when the
set is empty; when the payload has no colors attribute the attribute
access raises and nothing is mutated or logged. -/
theorem resizeArrow_bare_spec (g : Gui) (n : Name) (radius len : Rat)
    (hbare : splitSceneName n = none
       ∨ ∃ s e, splitSceneName n = some (s, e) ∧ g.getSceneIndex s = none) :
    (g.findEntity n = none → g.resizeArrow n radius len = ⟨.val false, g, []⟩)
    ∧ (∀ a i ent cols, g.findEntity n = some (a, i, ent) →
        ent.archetype.colorsAttr = some cols →
        g.resizeArrow n radius len =
          ⟨.val true,
            g.setEntityAt a i { ent with archetype := createArrow n radius len cols },
            ent.scenes.map fun si => .log ent.name (createArrow n radius len cols) (g.recAt si)⟩)
    ∧ (∀ a i ent, g.findEntity n = some (a, i, ent) →
        ent.archetype.colorsAttr = none →
        g.resizeArrow n radius len = ⟨.exn "AttributeError", g, []⟩) := by
  have hred : g.resizeArrow n radius len = g.resizeBare n radius len := by
    rcases hbare with h | ⟨s, e, h1, h2⟩
    · simp only [Gui.resizeArrow, h]
    · simp only [Gui.resizeArrow, h1, h2]
  refine ⟨?_, ?_, ?_⟩
  · intro h
    rw [hred]
    simp only [Gui.resizeBare, h]
  · intro a i ent cols hent hcols
    rw [hred]
    simp only [Gui.resizeBare, hent, hcols]
  · intro a i ent hent hcols
    rw [hred]
    simp only [Gui.resizeBare, hent, hcols]

/-- Witness for the amended C6: a bare arrow with empty membership gets
its payload replaced (new radius 2 and length 3, colors kept) with no
backend call. -/
theorem resizeArrow_bare_spec_witness :
    (Gui.init.addArrow ['a'] 1 1 [9, 9, 9, 9]).gui.resizeArrow ['a'] 2 3 =
      ⟨.val true,
        (Gui.init.addArrow ['a'] 1 1 [9, 9, 9, 9]).gui.setEntityAt .ARROWS3D 0
          ⟨['a'], createArrow ['a'] 2 3 [[9, 9, 9, 9]], []⟩,
        []⟩ :=
  (resizeArrow_bare_spec (Gui.init.addArrow ['a'] 1 1 [9, 9, 9, 9]).gui ['a'] 2 3
    (Or.inl (by decide))).2.1 .ARROWS3D 0 ⟨['a'], .arrows3d [[1]] 1 [[9, 9, 9, 9]] [['a']], []⟩
    [[9, 9, 9, 9]] (by decide) (by decide)

/-- Counterexample to C4: scene `s` (index 0) is registered and bound,
the mesh-from-path entity `m` is registered; `addToGroup("m", "s")`
returns `True` — a successful call — yet the scene is never added to the
entity's membership set, so the membership test afterwards is false. -/
theorem addToGroup_mesh_skips_membership :
    ((((Gui.init.createScene ['s']).createWindow ['w']).1.addSceneToWindow ['s']
        ['w']).2.addMesh ['m'] ['p']).gui.getSceneIndex ['s'] = some 0
    ∧ (((((Gui.init.createScene ['s']).createWindow ['w']).1.addSceneToWindow ['s']
        ['w']).2.addMesh ['m'] ['p']).gui.addToGroup ['m'] ['s']).ret = .val true
    ∧ (((((Gui.init.createScene ['s']).createWindow ['w']).1.addSceneToWindow ['s']
        ['w']).2.addMesh ['m'] ['p']).gui.addToGroup ['m'] ['s']).gui.findEntity ['m'] =
      some (.MESH_FROM_PATH, 0, ⟨['m'], .meshFromPath ['p'], []⟩)
    ∧ isEntityInScene (⟨['m'], .meshFromPath ['p'], []⟩ : Entity) 0 = false :=
  ⟨by decide, by decide, by decide, by decide⟩

/-- C4 as amended: for every registered entity whose payload is not of
the mesh-from-path kind and every registered scene, `addToGroup`
succeeds, after which the entity is a member of the scene; a second
identical call succeeds as well and leaves the registry exactly as the
first call left it — in particular no duplicate membership entry is
created.  (For the mesh-from-path kind the call succeeds but never
records the membership, as the counterexample shows.) -/
theorem addToGroup_membership_idempotent (g : Gui) (en sn : Name) (a : Archetype) (i : Nat)
    (ent : Entity) (si : Nat)
    (hent : g.findEntity en = some (a, i, ent))
    (hsc : g.getSceneIndex sn = some si)
    (hmesh : ∀ p, ¬ ent.archetype = .meshFromPath p) :
    (g.addToGroup en sn).ret = .val true
    ∧ (g.addToGroup en sn).gui.findEntity en = some (a, i, ent.addScene si)
    ∧ isEntityInScene (ent.addScene si) si = true
    ∧ ((g.addToGroup en sn).gui.addToGroup en sn).ret = .val true
    ∧ ((g.addToGroup en sn).gui.addToGroup en sn).gui = (g.addToGroup en sn).gui := by
  have hrun := addToGroup_nonMesh g en sn a i ent si hent hsc hmesh
  have hname : (ent.addScene si).name = en := by
    rw [addScene_name]
    exact findEntity_name g en a i ent hent
  have hent2 : (g.setEntityAt a i (ent.addScene si)).findEntity en =
      some (a, i, ent.addScene si) :=
    findEntity_setEntityAt g en a i ent (ent.addScene si) hent hname
  have hsc2 : (g.setEntityAt a i (ent.addScene si)).getSceneIndex sn = some si := hsc
  have hmesh2 : ∀ p, ¬ (ent.addScene si).archetype = .meshFromPath p := by
    intro p
    rw [addScene_archetype]
    exact hmesh p
  have hrun2 := addToGroup_nonMesh (g.setEntityAt a i (ent.addScene si)) en sn a i
    (ent.addScene si) si hent2 hsc2 hmesh2
  have hidem : (ent.addScene si).addScene si = ent.addScene si :=
    addScene_of_mem _ si (addScene_mem_self ent si)
  rw [hrun]
  dsimp only
  refine ⟨rfl, hent2, by simp [isEntityInScene, addScene_mem_self], ?_, ?_⟩
  · rw [hrun2]
  · rw [hrun2]
    dsimp only
    rw [hidem]
    exact setEntityAt_setEntityAt g a i (ent.addScene si) (ent.addScene si)

/-- Witness for the amended C4: a deferred sphere `b` added to scene `s`
by `addToGroup` succeeds, and the second identical call leaves the state
of the first call unchanged. -/
theorem addToGroup_membership_idempotent_witness :
    ((((Gui.init.createScene ['s']).addSphere ['b'] 1 [7, 7, 7, 7]).gui.addToGroup ['b']
        ['s']).ret = .val true)
    ∧ (((((Gui.init.createScene ['s']).addSphere ['b'] 1 [7, 7, 7, 7]).gui.addToGroup ['b']
        ['s']).gui.addToGroup ['b'] ['s']).gui =
      (((Gui.init.createScene ['s']).addSphere ['b'] 1 [7, 7, 7, 7]).gui.addToGroup ['b']
        ['s']).gui) := by
  have h := addToGroup_membership_idempotent
    ((Gui.init.createScene ['s']).addSphere ['b'] 1 [7, 7, 7, 7]).gui ['b'] ['s'] .POINTS3D 0
    ⟨['b'], .points3d [[0, 0, 0]] [[1]] [[7, 7, 7, 7]] [['b']], []⟩ 0 (by decide) (by decide)
    (fun p hq => Payload.noConfusion hq)
  exact ⟨h.1, h.2.2.2.2⟩

/-- C9: whenever a mesh-from-path entity is logged to a scene with a set
recording handle — at creation with a resolvable scene part, or later
through `addToGroup` — the backend call issued is the file-load entry
point with the handle converted to its native form, and no generic log
call is made. -/
theorem meshFromPath_uses_logFile :
    (∀ (g : Gui) (name s e path : Name) (si : Nat) (r : Recording),
        splitSceneName name = some (s, e) → g.getSceneIndex s = some si →
        g.recAt si = some r →
        (g.addMesh name path).events = [.logFile path r.toNative])
    ∧ (∀ (g : Gui) (en sn : Name) (a : Archetype) (i : Nat) (ent : Entity) (p : Name)
        (si : Nat) (r : Recording),
        g.findEntity en = some (a, i, ent) → ent.archetype = .meshFromPath p →
        g.getSceneIndex sn = some si → g.getRecording sn = some r →
        g.addToGroup en sn = ⟨.val true, g, [.logFile p r.toNative]⟩) := by
  constructor
  · intro g name s e path si r hsplit hsc hrec
    unfold Gui.addMesh
    rw [parseEntity_mesh_bound g name s e path si r hsplit hsc hrec]
  · intro g en sn a i ent p si r hent harch hsc hrec
    exact addToGroup_mesh_bound_run g en sn a i ent p si r hent harch hsc hrec

/-- Witness for C9: on a bound scene `s`, mesh creation under `"s/m"`
issues one file-load call with the native handle, and `addToGroup` of a
deferred mesh issues one file-load call with the native handle. -/
theorem meshFromPath_uses_logFile_witness :
    ((((Gui.init.createScene ['s']).createWindow ['w']).1.addSceneToWindow ['s']
        ['w']).2.addMesh ['s', '/', 'm'] ['p']).events =
      [.logFile ['p'] (Recording.toNative ⟨['w'], ['s']⟩)]
    ∧ (((((Gui.init.createScene ['s']).createWindow ['w']).1.addSceneToWindow ['s']
        ['w']).2.addMesh ['m', '2'] ['q']).gui.addToGroup ['m', '2'] ['s']) =
      ⟨.val true,
        ((((Gui.init.createScene ['s']).createWindow ['w']).1.addSceneToWindow ['s']
          ['w']).2.addMesh ['m', '2'] ['q']).gui,
        [.logFile ['q'] (Recording.toNative ⟨['w'], ['s']⟩)]⟩ := by
  constructor
  · exact meshFromPath_uses_logFile.1
      ((((Gui.init.createScene ['s']).createWindow ['w']).1.addSceneToWindow ['s'] ['w']).2)
      ['s', '/', 'm'] ['s'] ['m'] ['p'] 0 ⟨['w'], ['s']⟩ (by decide) (by decide) (by decide)
  · exact meshFromPath_uses_logFile.2
      (((((Gui.init.createScene ['s']).createWindow ['w']).1.addSceneToWindow ['s']
        ['w']).2.addMesh ['m', '2'] ['q']).gui)
      ['m', '2'] ['s'] .MESH_FROM_PATH 0 ⟨['m', '2'], .meshFromPath ['q'], []⟩ ['q'] 0
      ⟨['w'], ['s']⟩ (by decide) (by decide) (by decide) (by decide)

/-- C10: `addToGroup` never checks that the scene has been bound to a
window: with a registered entity and a registered but unbound scene
(recording still `None`), both existence checks pass and the backend is
invoked — the generic log call is issued with a `None` recording handle
for every non-mesh payload, and for the mesh-from-path payload the
absent handle is dereferenced, raising `AttributeError`; in neither case
is the NotFound-style `False` returned. -/
theorem addToGroup_ignores_binding (g : Gui) (en sn : Name) (a : Archetype) (i : Nat)
    (ent : Entity) (si : Nat)
    (hent : g.findEntity en = some (a, i, ent))
    (hsc : g.getSceneIndex sn = some si)
    (hunbound : g.getRecording sn = none) :
    ((∀ p, ¬ ent.archetype = .meshFromPath p) →
        (g.addToGroup en sn).ret = .val true
        ∧ (g.addToGroup en sn).events = [.log ent.name ent.archetype none])
    ∧ (∀ p, ent.archetype = .meshFromPath p →
        g.addToGroup en sn = ⟨.exn "AttributeError", g, []⟩) := by
  constructor
  · intro hmesh
    rw [addToGroup_nonMesh g en sn a i ent si hent hsc hmesh, hunbound]
    exact ⟨rfl, rfl⟩
  · intro p harch
    have hge : g.getEntity en = some ent := getEntity_of_findEntity g en a i ent hent
    simp only [Gui.addToGroup, hsc, hge]
    exact logArchetype_mesh_unbound g en sn a i ent p hent harch hunbound

/-- Witness for C10: scene `s` registered but never bound, deferred
sphere `c`; `addToGroup("c", "s")` passes both checks and issues one log
call with a `None` recording handle instead of failing. -/
theorem addToGroup_ignores_binding_witness :
    ((((Gui.init.createScene ['s']).addSphere ['c'] 1 [5, 5, 5, 5]).gui.addToGroup ['c']
        ['s']).ret = .val true)
    ∧ ((((Gui.init.createScene ['s']).addSphere ['c'] 1 [5, 5, 5, 5]).gui.addToGroup ['c']
        ['s']).events =
      [.log ['c'] (.points3d [[0, 0, 0]] [[1]] [[5, 5, 5, 5]] [['c']]) none]) :=
  (addToGroup_ignores_binding
    ((Gui.init.createScene ['s']).addSphere ['c'] 1 [5, 5, 5, 5]).gui ['c'] ['s'] .POINTS3D 0
    ⟨['c'], .points3d [[0, 0, 0]] [[1]] [[5, 5, 5, 5]] [['c']], []⟩ 0 (by decide) (by decide)
    (by decide)).1 (fun p hq => Payload.noConfusion hq)
